import Mathlib

/-! Shallow embedding of the Midx music-indexing library
(src/deps/Midx/src/midx.cpp) for checking its specification.

The SQLite database is modelled as five lists of rows plus the
AUTOINCREMENT counters of the four tables that have one.  Exceptions
thrown by the C++ code (std::filesystem, std::optional, SQLite) are
modelled with Except.  The filesystem and the TagLib tag reader are
modelled as an abstract FileSystem record, since the code only probes
them through fs::exists, fs::is_directory, fs::is_regular_file,
fs::canonical, recursive_directory_iterator and TagLib::FileRef.
-/

set_option autoImplicit false

namespace Midx

/-- Exceptions that can escape the embedded operations:
filesystemError models std::filesystem::filesystem_error (thrown by
fs::canonical when the path does not exist), badOptionalAccess models
std::bad_optional_access (thrown by std::optional::value() on an empty
optional), sqliteError models SQLite::Exception. -/
inductive MidxError where
  | filesystemError
  | badOptionalAccess
  | sqliteError (msg : String)
deriving DecidableEq, Repr

/-- Kind of a filesystem entry, as distinguished by fs::is_directory and
fs::is_regular_file. -/
inductive FileKind where
  | regular
  | directory
  | other
deriving DecidableEq, Repr

/-- Embedded tag fields of an audio file, as exposed by TagLib::Tag.
othersEmpty models that the remaining fields TagLib::Tag::isEmpty looks
at (comment, genre, year) are all empty. -/
structure Tags where
  title : String
  artist : String
  album : String
  track : Nat
  othersEmpty : Bool
deriving DecidableEq, Repr

/-- TagLib::Tag::isEmpty: true iff title, artist, album, comment and
genre are empty and year and track are 0. -/
def tags_is_empty (t : Tags) : Bool :=
  t.title == "" && t.artist == "" && t.album == "" && t.track == 0 && t.othersEmpty

/-- Abstract filesystem and tag reader.
kind p = none means the path does not exist; canon models the
resolution performed by fs::canonical on an existing path; tags models
TagLib::FileRef (none = fref.isNull(), i.e. the file cannot be opened
as a tagged container); listing models fs::recursive_directory_iterator
in filesystem-enumeration order. -/
structure FileSystem where
  kind : String → Option FileKind
  canon : String → String
  tags : String → Option Tags
  listing : String → List String

def fs_exists (fs : FileSystem) (p : String) : Bool :=
  (fs.kind p).isSome

def fs_is_directory (fs : FileSystem) (p : String) : Bool :=
  fs.kind p == some .directory

def fs_is_regular_file (fs : FileSystem) (p : String) : Bool :=
  fs.kind p == some .regular

/-- fs::canonical: resolves an existing path, throws
std::filesystem::filesystem_error when the path does not exist. -/
def fs_canonical (fs : FileSystem) (p : String) : Except MidxError String :=
  if fs_exists fs p then .ok (fs.canon p) else .error .filesystemError

/-- Row of t_music_dirs (id INTEGER PRIMARY KEY AUTOINCREMENT,
path TEXT NOT NULL UNIQUE). -/
structure MusicDirRow where
  id : Nat
  path : String
deriving DecidableEq, Repr

/-- Row of t_artists (id INTEGER PRIMARY KEY AUTOINCREMENT,
name TEXT NOT NULL UNIQUE). -/
structure ArtistRow where
  id : Nat
  name : String
deriving DecidableEq, Repr

/-- Row of t_albums (id INTEGER PRIMARY KEY AUTOINCREMENT, name TEXT
NOT NULL, artist_id INTEGER nullable,
CONSTRAINT unique_artist_album UNIQUE (name, artist_id)). -/
structure AlbumRow where
  id : Nat
  name : String
  artist_id : Option Nat
deriving DecidableEq, Repr

/-- Row of t_tracks (id INTEGER PRIMARY KEY AUTOINCREMENT, file_path
TEXT NOT NULL UNIQUE, parent_dir_id INTEGER NOT NULL references
t_music_dirs). -/
structure TrackRow where
  id : Nat
  file_path : String
  parent_dir_id : Nat
deriving DecidableEq, Repr

/-- Row of t_tracks_metadata (track_id INTEGER PRIMARY KEY references
t_tracks, title TEXT NOT NULL, track_num INTEGER nullable, artist_id
INTEGER nullable references t_artists, album_id INTEGER nullable
references t_albums). -/
structure TrackMetadataRow where
  track_id : Nat
  title : String
  track_num : Option Nat
  artist_id : Option Nat
  album_id : Option Nat
deriving DecidableEq, Repr

/-- The database state: the five tables created by init_database plus
the AUTOINCREMENT counter of each table that has one (SQLite issues
rowids 1, 2, ...). -/
structure DB where
  music_dirs : List MusicDirRow
  artists : List ArtistRow
  albums : List AlbumRow
  tracks : List TrackRow
  tracks_metadata : List TrackMetadataRow
  next_music_dir_id : Nat
  next_artist_id : Nat
  next_album_id : Nat
  next_track_id : Nat
deriving DecidableEq, Repr

/-- The freshly initialised database (all tables empty). -/
def DB.empty : DB :=
  { music_dirs := [], artists := [], albums := [], tracks := [],
    tracks_metadata := [], next_music_dir_id := 1, next_artist_id := 1,
    next_album_id := 1, next_track_id := 1 }

/-- SELECT EXISTS(SELECT 1 FROM t_music_dirs WHERE id = ?). -/
def is_valid_music_dir_id (db : DB) (id : Nat) : Bool :=
  db.music_dirs.any (fun r => r.id == id)

/-- SELECT EXISTS(SELECT 1 FROM t_artists WHERE id = ?). -/
def is_valid_artist_id (db : DB) (id : Nat) : Bool :=
  db.artists.any (fun r => r.id == id)

/-- SELECT EXISTS(SELECT 1 FROM t_albums WHERE id = ?). -/
def is_valid_album_id (db : DB) (id : Nat) : Bool :=
  db.albums.any (fun r => r.id == id)

/-- SELECT EXISTS(SELECT 1 FROM t_tracks WHERE id = ?). -/
def is_valid_track_id (db : DB) (id : Nat) : Bool :=
  db.tracks.any (fun r => r.id == id)

/-- SELECT id FROM t_music_dirs WHERE path = ?. -/
def get_music_dir_id (db : DB) (path : String) : Option Nat :=
  (db.music_dirs.find? (fun r => r.path == path)).map (fun r => r.id)

/-- SELECT id FROM t_artists WHERE name = ?. -/
def get_artist_id (db : DB) (name : String) : Option Nat :=
  (db.artists.find? (fun r => r.name == name)).map (fun r => r.id)

/-- SELECT id FROM t_albums WHERE name = ? AND artist_id = ?.
When the second parameter is bound to NULL the SQL comparison
artist_id = NULL is never true, so the lookup can only hit for a
present artist id. -/
def get_album_id (db : DB) (name : String) (artist_id : Option Nat) : Option Nat :=
  match artist_id with
  | none => none
  | some a =>
      (db.albums.find? (fun r => r.name == name && r.artist_id == some a)).map
        (fun r => r.id)

/-- SELECT id FROM t_tracks WHERE file_path = ?. -/
def get_track_id (db : DB) (file_path : String) : Option Nat :=
  (db.tracks.find? (fun r => r.file_path == file_path)).map (fun r => r.id)

/-- Columns of t_tracks_metadata as created by init_database. -/
def t_tracks_metadata_columns : List String :=
  ["track_id", "title", "track_num", "artist_id", "album_id"]

/-- The column name the WHERE clause of get_track_metadata filters on:
its SQL text is SELECT track_id, title, track_num, artist_id, album_id
FROM t_tracks_metadata WHERE id = ?. -/
def get_track_metadata_where_column : String := "id"

/-- get_track_metadata prepares the statement above; statement
preparation raises SQLite::Exception when the WHERE column is not a
column of the table.  Were the column present, the lookup would filter
the rows on it (key lookup on the primary key track_id). -/
def get_track_metadata (db : DB) (id : Nat) :
    Except MidxError (Option TrackMetadataRow) :=
  if get_track_metadata_where_column ∈ t_tracks_metadata_columns then
    .ok (db.tracks_metadata.find? (fun m => m.track_id == id))
  else
    .error (.sqliteError "no such column: id")

/-- SELECT id, name FROM t_artists WHERE id = ?. -/
def get_artist (db : DB) (id : Nat) : Option ArtistRow :=
  db.artists.find? (fun r => r.id == id)

/-- SELECT id, name, artist_id FROM t_albums WHERE id = ?. -/
def get_album (db : DB) (id : Nat) : Option AlbumRow :=
  db.albums.find? (fun r => r.id == id)

/-- SELECT id, path FROM t_music_dirs. -/
def get_all_music_dirs (db : DB) : List MusicDirRow :=
  db.music_dirs

/-- SELECT id, name FROM t_artists. -/
def get_all_artists (db : DB) : List ArtistRow :=
  db.artists

/-- SELECT id, name, artist_id FROM t_albums. -/
def get_all_albums (db : DB) : List AlbumRow :=
  db.albums

/-- Output row of get_all_tracks: the C++ Track object with the
metadata attached by update_metadata. -/
structure TrackOut where
  id : Nat
  file_path : String
  parent_dir_id : Nat
  metadata : Option TrackMetadataRow
deriving DecidableEq, Repr

/-- get_all_tracks: SELECT id, file_path, parent_dir_id, title,
track_num, artist_id, album_id FROM t_tracks t LEFT JOIN
t_tracks_metadata tm ON t.id = tm.track_id.  For a track with no
metadata row the joined columns are NULL; getColumn(3).getString()
yields the empty string on NULL and the isColumnNull checks yield
none, and update_metadata is called on every row, so every returned
track carries a metadata record.  track_id is the PRIMARY KEY of
t_tracks_metadata, so at most one metadata row joins each track; the
model takes the first match. -/
def get_all_tracks (db : DB) : List TrackOut :=
  db.tracks.map (fun t =>
    let md := db.tracks_metadata.find? (fun m => m.track_id == t.id)
    { id := t.id, file_path := t.file_path, parent_dir_id := t.parent_dir_id,
      metadata := some
        { track_id := t.id,
          title := match md with | some m => m.title | none => "",
          track_num := match md with | some m => m.track_num | none => none,
          artist_id := match md with | some m => m.artist_id | none => none,
          album_id := match md with | some m => m.album_id | none => none } })

/-- Utils::is_supported_file_type: path.ends_with for each of the two
supported extensions. -/
def str_ends_with (s suffix : String) : Bool :=
  List.isSuffixOf suffix.data s.data

def is_supported_file_type (path : String) : Bool :=
  str_ends_with path ".flac" || str_ends_with path ".mp3"

/-- fs::path(p).filename(): the component after the last directory
separator. -/
def filename_of (p : String) : String :=
  String.mk (p.data.foldl (fun acc c => if c == '/' then [] else acc ++ [c]) [])

/-- Index of the last occurrence of a dot in a character list. -/
def last_dot_idx (cs : List Char) : Option Nat :=
  (cs.foldl
    (fun (st : Nat × Option Nat) c =>
      (st.1 + 1, if c == '.' then some st.1 else st.2))
    (0, none)).2

/-- fs::path(n).replace_extension "": removes the extension of a
filename; dot-names and names whose only dot is the leading character
have no extension. -/
def remove_extension (n : String) : String :=
  if n == "." || n == ".." then n
  else
    match last_dot_idx n.data with
    | none => n
    | some 0 => n
    | some i => String.mk (n.data.take i)

/-- INSERT OR IGNORE INTO t_music_dirs (id, path) VALUES (NULL, ?):
path is UNIQUE, so the insert is ignored when a row with this path
already exists. -/
def music_dir_insert_or_ignore (db : DB) (path : String) : DB :=
  if db.music_dirs.any (fun r => r.path == path) then db
  else
    { db with
      music_dirs := db.music_dirs ++ [⟨db.next_music_dir_id, path⟩],
      next_music_dir_id := db.next_music_dir_id + 1 }

/-- insert_music_dir: checks fs::exists and fs::is_directory on the
given path, canonicalizes it (safe: the path exists), then
insert-or-get by canonical path. -/
def insert_music_dir (fs : FileSystem) (db : DB) (path : String) :
    Option Nat × DB :=
  if !fs_exists fs path || !fs_is_directory fs path then (none, db)
  else
    let abs_path := fs.canon path
    match get_music_dir_id db abs_path with
    | some id => (some id, db)
    | none =>
        let db1 := music_dir_insert_or_ignore db abs_path
        (get_music_dir_id db1 abs_path, db1)

/-- INSERT OR IGNORE INTO t_artists (id, name) VALUES (NULL, ?):
name is UNIQUE. -/
def artist_insert_or_ignore (db : DB) (name : String) : DB :=
  if db.artists.any (fun r => r.name == name) then db
  else
    { db with
      artists := db.artists ++ [⟨db.next_artist_id, name⟩],
      next_artist_id := db.next_artist_id + 1 }

/-- insert_artist: lookup by name, insert on miss, re-read. -/
def insert_artist (db : DB) (name : String) : Option Nat × DB :=
  match get_artist_id db name with
  | some id => (some id, db)
  | none =>
      let db1 := artist_insert_or_ignore db name
      (get_artist_id db1 name, db1)

/-- INSERT OR IGNORE INTO t_albums (id, name, artist_id) VALUES
(NULL, ?, ?): the UNIQUE (name, artist_id) constraint only blocks a
duplicate when artist_id is non-NULL, because SQLite treats NULLs as
distinct from each other in UNIQUE constraints. -/
def album_insert_or_ignore (db : DB) (name : String) (artist_id : Option Nat) :
    DB :=
  let conflict :=
    match artist_id with
    | some a => db.albums.any (fun r => r.name == name && r.artist_id == some a)
    | none => false
  if conflict then db
  else
    { db with
      albums := db.albums ++ [⟨db.next_album_id, name, artist_id⟩],
      next_album_id := db.next_album_id + 1 }

/-- insert_album: refuses a present but invalid artist id, then lookup
by (name, artist_id), insert on miss, re-read. -/
def insert_album (db : DB) (name : String) (artist_id : Option Nat) :
    Option Nat × DB :=
  if artist_id.isSome && !is_valid_artist_id db (artist_id.getD 0) then
    (none, db)
  else
    match get_album_id db name artist_id with
    | some id => (some id, db)
    | none =>
        let db1 := album_insert_or_ignore db name artist_id
        (get_album_id db1 name artist_id, db1)

/-- Utils::load_metadata.  Returns ok none when the track id is
invalid, the file cannot be opened as a tagged container, or its tag
set is entirely empty.  Otherwise it computes title (falling back to
the filename minus extension), track number (the sentinel 0 maps to
none), resolves artist and album names into ids via insert_artist and
insert_album, and then builds the album-art cache filename with
std::format writing album_id.value(): when album_id is empty this
call raises std::bad_optional_access.  The art-file write itself only
touches the on-disk art cache, never the catalog tables, so it is not
modelled. -/
def load_metadata (fs : FileSystem) (db : DB) (track_id : Nat)
    (file_path : String) : Except MidxError (Option TrackMetadataRow × DB) :=
  if !is_valid_track_id db track_id then .ok (none, db)
  else
    match fs.tags file_path with
    | none => .ok (none, db)
    | some tg =>
      if tags_is_empty tg then .ok (none, db)
      else
        let title :=
          if !(tg.title == "") then tg.title
          else remove_extension (filename_of file_path)
        let trk_num : Option Nat := if tg.track == 0 then none else some tg.track
        let ares := if !(tg.artist == "") then insert_artist db tg.artist else (none, db)
        let bres :=
          if !(tg.album == "") then insert_album ares.2 tg.album ares.1
          else (none, ares.2)
        match bres.1 with
        | none => .error .badOptionalAccess
        | some aid =>
            .ok (some ⟨track_id, title, trk_num, ares.1, some aid⟩, bres.2)

/-- Utils::insert_metadata: INSERT OR REPLACE INTO t_tracks_metadata.
An empty title is bound as NULL, which violates the NOT NULL
constraint on title (no default value, so OR REPLACE falls back to
ABORT and SQLite::Exception is raised); with foreign keys ON a
dangling track, artist or album id also raises.  Otherwise OR REPLACE
drops any existing row with this track_id and inserts the new one. -/
def insert_metadata (db : DB) (tm : TrackMetadataRow) :
    Except MidxError (Option Nat × DB) :=
  if tm.title == "" then
    .error (.sqliteError "NOT NULL constraint failed: t_tracks_metadata.title")
  else if !is_valid_track_id db tm.track_id then
    .error (.sqliteError "FOREIGN KEY constraint failed")
  else if tm.artist_id.isSome && !is_valid_artist_id db (tm.artist_id.getD 0) then
    .error (.sqliteError "FOREIGN KEY constraint failed")
  else if tm.album_id.isSome && !is_valid_album_id db (tm.album_id.getD 0) then
    .error (.sqliteError "FOREIGN KEY constraint failed")
  else
    .ok (some tm.track_id,
      { db with
        tracks_metadata :=
          db.tracks_metadata.filter (fun m => !(m.track_id == tm.track_id))
            ++ [tm] })

/-- INSERT OR IGNORE INTO t_tracks (id, file_path, parent_dir_id)
VALUES (NULL, ?, ?): file_path is UNIQUE. -/
def track_insert_or_ignore (db : DB) (file_path : String)
    (parent_dir_id : Nat) : DB :=
  if db.tracks.any (fun r => r.file_path == file_path) then db
  else
    { db with
      tracks := db.tracks ++ [⟨db.next_track_id, file_path, parent_dir_id⟩],
      next_track_id := db.next_track_id + 1 }

/-- insert_track: requires a present, valid parent directory id; then
calls fs::canonical on the file path (which throws when the path does
not exist) before checking fs::exists and fs::is_regular_file; then
insert-or-get by canonical path, followed by metadata extraction and
insertion for a newly inserted track. -/
def insert_track (fs : FileSystem) (db : DB) (file_path : String)
    (parent_dir_id : Option Nat) : Except MidxError (Option Nat × DB) :=
  if parent_dir_id.isNone || !is_valid_music_dir_id db (parent_dir_id.getD 0) then
    .ok (none, db)
  else
    match fs_canonical fs file_path with
    | .error e => .error e
    | .ok abs_path =>
      if !fs_exists fs abs_path || !fs_is_regular_file fs abs_path then
        .ok (none, db)
      else
        match get_track_id db abs_path with
        | some id => .ok (some id, db)
        | none =>
            let db1 := track_insert_or_ignore db abs_path (parent_dir_id.getD 0)
            match get_track_id db1 abs_path with
            | none => .error .badOptionalAccess
            | some tid =>
                match load_metadata fs db1 tid file_path with
                | .error e => .error e
                | .ok (some tm, db2) =>
                    match insert_metadata db2 tm with
                    | .error e => .error e
                    | .ok (_, db3) => .ok (some tid, db3)
                | .ok (none, db2) => .ok (some tid, db2)

/-- remove_track: DELETE FROM t_tracks_metadata WHERE track_id = ?,
then DELETE FROM t_tracks WHERE id = ?; always reports true. -/
def remove_track (db : DB) (track_id : Nat) : Bool × DB :=
  let db1 :=
    { db with
      tracks_metadata :=
        db.tracks_metadata.filter (fun m => !(m.track_id == track_id)) }
  let db2 := { db1 with tracks := db1.tracks.filter (fun t => !(t.id == track_id)) }
  (true, db2)

/-- get_ids_of_tracks_of_music_dir: SELECT t_tracks.id FROM t_tracks
JOIN t_music_dirs ON t_tracks.parent_dir_id = t_music_dirs.id WHERE
t_music_dirs.id = ?. -/
def get_ids_of_tracks_of_music_dir (db : DB) (mdir_id : Nat) : List Nat :=
  (db.tracks.filter (fun t =>
    t.parent_dir_id == mdir_id
      && db.music_dirs.any (fun d => d.id == mdir_id))).map (fun t => t.id)

/-- remove_music_dir: requires the path to exist on disk and be a
directory, and the canonical path to be registered; then three DELETE
statements run in order: the metadata rows of the tracks of the
directory (join through t_tracks and t_music_dirs), then those track
rows (join through t_music_dirs), then the t_music_dirs row itself. -/
def remove_music_dir (fs : FileSystem) (db : DB) (path : String) : Bool × DB :=
  if !fs_exists fs path || !fs_is_directory fs path then (false, db)
  else
    let abs_path := fs.canon path
    match get_music_dir_id db abs_path with
    | none => (false, db)
    | some dir_id =>
        let db1 :=
          { db with
            tracks_metadata := db.tracks_metadata.filter (fun m =>
              !(db.tracks.any (fun t =>
                  t.id == m.track_id && t.parent_dir_id == dir_id)
                && db.music_dirs.any (fun d => d.id == dir_id))) }
        let db2 :=
          { db1 with
            tracks := db1.tracks.filter (fun t =>
              !(t.parent_dir_id == dir_id
                && db1.music_dirs.any (fun d => d.id == dir_id))) }
        let db3 :=
          { db2 with
            music_dirs := db2.music_dirs.filter (fun d => !(d.id == dir_id)) }
        (true, db3)

/-- scan_directory: calls fs::canonical on the given path first (which
throws when the path does not exist), checks the canonical path is an
existing directory, registers it via insert_music_dir, then walks the
recursive directory listing inserting every regular file of a
supported type. -/
def scan_directory (fs : FileSystem) (db : DB) (path : String) :
    Except MidxError (Option Nat × DB) :=
  match fs_canonical fs path with
  | .error e => .error e
  | .ok abs_path =>
    if !fs_exists fs abs_path || !fs_is_directory fs abs_path then
      .ok (none, db)
    else
      let step := insert_music_dir fs db abs_path
      let dbrest :=
        (fs.listing abs_path).foldlM
          (fun (acc : DB) (p : String) =>
            if fs_is_regular_file fs p && is_supported_file_type p then
              match insert_track fs acc p step.1 with
              | .error e => (Except.error e : Except MidxError DB)
              | .ok (_, db2) => Except.ok db2
            else Except.ok acc)
          step.2
      match dbrest with
      | .error e => (.error e : Except MidxError (Option Nat × DB))
      | .ok dbf => .ok (step.1, dbf)

/-- build_music_library: scan_directory on every registered music
directory, over the snapshot taken before the first scan. -/
def build_music_library (fs : FileSystem) (db : DB) : Except MidxError DB :=
  (get_all_music_dirs db).foldlM
    (fun acc d =>
      match scan_directory fs acc d.path with
      | .error e => .error e
      | .ok (_, db2) => .ok db2)
    db

/-! Concrete fixtures used by the claim theorems and witnesses. -/

/-- Filesystem for the end-to-end scenario: a directory /music holding
a.flac (tags title Song, artist X, album Y, track 3) and b.mp3 with an
entirely empty tag set. -/
def fs_c1 : FileSystem :=
  { kind := fun p =>
      if p == "/music" then some .directory
      else if p == "/music/a.flac" || p == "/music/b.mp3" then some .regular
      else none,
    canon := fun p => p,
    tags := fun p =>
      if p == "/music/a.flac" then some ⟨"Song", "X", "Y", 3, true⟩
      else if p == "/music/b.mp3" then some ⟨"", "", "", 0, true⟩
      else none,
    listing := fun p =>
      if p == "/music" then ["/music/a.flac", "/music/b.mp3"] else [] }

/-- The database produced by scanning /music in the end-to-end
scenario. -/
def c1_db : DB :=
  match scan_directory fs_c1 DB.empty "/music" with
  | .ok (_, d) => d
  | .error _ => DB.empty

/-- A filesystem on which no path exists at all. -/
def fs_none : FileSystem :=
  { kind := fun _ => none, canon := fun p => p, tags := fun _ => none,
    listing := fun _ => [] }

/-- Filesystem holding a single directory /m and nothing else. -/
def fs_c7 : FileSystem :=
  { kind := fun p => if p == "/m" then some .directory else none,
    canon := fun p => p, tags := fun _ => none, listing := fun _ => [] }

/-- Database with the single registered music directory /m. -/
def db_c7 : DB :=
  { DB.empty with music_dirs := [⟨1, "/m"⟩], next_music_dir_id := 2 }

/-- Filesystem for the empty-album-tag scenario: /m/t.mp3 carries a
title, an artist and a track number but an empty album field. -/
def fs_c3 : FileSystem :=
  { kind := fun p =>
      if p == "/m" then some .directory
      else if p == "/m/t.mp3" then some .regular else none,
    canon := fun p => p,
    tags := fun p =>
      if p == "/m/t.mp3" then some ⟨"T", "A", "", 5, true⟩ else none,
    listing := fun p => if p == "/m" then ["/m/t.mp3"] else [] }

/-- Database in which /m/t.mp3 is already registered as track 1. -/
def db_c3 : DB :=
  { DB.empty with
    music_dirs := [⟨1, "/m"⟩], next_music_dir_id := 2,
    tracks := [⟨1, "/m/t.mp3", 1⟩], next_track_id := 2 }

/-- Filesystem for the fallback scenario: /m/c.flac has an empty title
tag, track number 0, artist X and album Y. -/
def fs_c8 : FileSystem :=
  { kind := fun p =>
      if p == "/m" then some .directory
      else if p == "/m/c.flac" then some .regular else none,
    canon := fun p => p,
    tags := fun p =>
      if p == "/m/c.flac" then some ⟨"", "X", "Y", 0, true⟩ else none,
    listing := fun p => if p == "/m" then ["/m/c.flac"] else [] }

/-- Database in which /m/c.flac is already registered as track 1. -/
def db_c8 : DB :=
  { DB.empty with
    music_dirs := [⟨1, "/m"⟩], next_music_dir_id := 2,
    tracks := [⟨1, "/m/c.flac", 1⟩], next_track_id := 2 }

/-- The metadata row load_metadata produces for /m/c.flac. -/
def tm_c8 : TrackMetadataRow := ⟨1, "c", none, some 1, some 1⟩

/-- The database load_metadata leaves behind for /m/c.flac: artist X
and album Y have been inserted. -/
def db_c8f : DB :=
  { db_c8 with
    artists := [⟨1, "X"⟩], next_artist_id := 2,
    albums := [⟨1, "Y", some 1⟩], next_album_id := 2 }

/-- Filesystem holding the two directories /d1 and /d2. -/
def fs_c6 : FileSystem :=
  { kind := fun p =>
      if p == "/d1" || p == "/d2" then some .directory else none,
    canon := fun p => p, tags := fun _ => none, listing := fun _ => [] }

/-- Database with two registered directories, three tracks (two under
/d1, one under /d2), metadata for tracks 1 and 2, one artist and one
album. -/
def db_c6 : DB :=
  { music_dirs := [⟨1, "/d1"⟩, ⟨2, "/d2"⟩],
    artists := [⟨1, "X"⟩],
    albums := [⟨1, "Y", some 1⟩],
    tracks := [⟨1, "/d1/a.mp3", 1⟩, ⟨2, "/d2/b.mp3", 2⟩, ⟨3, "/d1/c.mp3", 1⟩],
    tracks_metadata :=
      [⟨1, "A", some 1, some 1, some 1⟩, ⟨2, "B", none, none, none⟩],
    next_music_dir_id := 3, next_artist_id := 2, next_album_id := 2,
    next_track_id := 4 }

/-- Filesystem for the fallback counterexample: /m/d.mp3 has an empty
title tag, track number 0, artist A and an empty album field, so its
tag set is non-empty but metadata loading hits the album-art slip. -/
def fs_c8x : FileSystem :=
  { kind := fun p =>
      if p == "/m" then some .directory
      else if p == "/m/d.mp3" then some .regular else none,
    canon := fun p => p,
    tags := fun p =>
      if p == "/m/d.mp3" then some ⟨"", "A", "", 0, true⟩ else none,
    listing := fun p => if p == "/m" then ["/m/d.mp3"] else [] }

/-- Database with one track and no metadata row, used to witness the
left-join behavior of get_all_tracks. -/
def db_c10 : DB :=
  { DB.empty with
    music_dirs := [⟨1, "/m"⟩], next_music_dir_id := 2,
    tracks := [⟨1, "/m/a.mp3", 1⟩], next_track_id := 2 }

/-- Decidable equality for Except results, so that concrete runs of
the fallible operations can be checked by evaluation. -/
instance exceptDecidableEq {ε α : Type} [DecidableEq ε] [DecidableEq α] :
    DecidableEq (Except ε α) := fun x y =>
  match x, y with
  | .error e, .error f =>
      if h : e = f then .isTrue (by rw [h])
      else .isFalse (fun hc => by cases hc; exact h rfl)
  | .error _, .ok _ => .isFalse (fun hc => by cases hc)
  | .ok _, .error _ => .isFalse (fun hc => by cases hc)
  | .ok a, .ok b =>
      if h : a = b then .isTrue (by rw [h])
      else .isFalse (fun hc => by cases hc; exact h rfl)

/-! Claim theorems. -/

/-- C1 counterexample: in the end-to-end scenario (directory /music
with a.flac tagged title Song, artist X, album Y, track 3, and b.mp3
with no tags at all) the scan does NOT yield 2 TrackMetadata rows as
the claim states: it yields exactly 1, and no metadata row carries the
filename-derived title b, because load_metadata returns no metadata
for a file whose tag set is entirely empty. -/
theorem c1_two_metadata_rows_refuted :
    c1_db.tracks_metadata.length = 1 ∧
    ¬(c1_db.tracks_metadata.length = 2) ∧
    c1_db.tracks_metadata.all (fun m => !(m.title == "b")) = true := by
  decide

/-- C1 amended: scanning /music in the end-to-end scenario yields
exactly 1 MusicDirectory row, 1 Artist row X, 1 Album row Y owned by
artist X, 2 Track rows, and exactly 1 TrackMetadata row — for a.flac,
with title Song, track number 3, artist X, album Y; b.mp3 receives a
Track row but no TrackMetadata row since its tag set is entirely
empty. -/
theorem c1_end_to_end_scan :
    scan_directory fs_c1 DB.empty "/music" = .ok (some 1, c1_db) ∧
    c1_db.music_dirs = [⟨1, "/music"⟩] ∧
    c1_db.artists = [⟨1, "X"⟩] ∧
    c1_db.albums = [⟨1, "Y", some 1⟩] ∧
    c1_db.tracks = [⟨1, "/music/a.flac", 1⟩, ⟨2, "/music/b.mp3", 1⟩] ∧
    c1_db.tracks_metadata = [⟨1, "Song", some 3, some 1, some 1⟩] := by
  decide

/-- C2: insert_album is NOT insert-or-get for an absent artist id.
With the natural key (Y, no artist) the first call inserts a row but
returns no id, and the second call inserts a second row with the same
natural key and again returns no id: the lookup SELECT id FROM
t_albums WHERE name = ? AND artist_id = ? never matches a NULL
artist_id, and the UNIQUE (name, artist_id) constraint treats NULLs
as distinct. -/
theorem c2_insert_album_null_artist_duplicates :
    (insert_album DB.empty "Y" none).1 = none ∧
    (insert_album DB.empty "Y" none).2.albums = [⟨1, "Y", none⟩] ∧
    (insert_album (insert_album DB.empty "Y" none).2 "Y" none).1 = none ∧
    (insert_album (insert_album DB.empty "Y" none).2 "Y" none).2.albums =
      [⟨1, "Y", none⟩, ⟨2, "Y", none⟩] := by
  decide

/-- C3: for every supported file whose tag set is non-empty but whose
album field is empty, Utils::load_metadata does NOT complete: it
raises std::bad_optional_access, because the album-art filename is
built with album_id.value() before the has_value guard. -/
theorem c3_load_metadata_empty_album_throws
    (fs : FileSystem) (db : DB) (tid : Nat) (p : String) (tg : Tags)
    (hv : is_valid_track_id db tid = true)
    (ht : fs.tags p = some tg)
    (hne : tags_is_empty tg = false)
    (ha : tg.album = "") :
    load_metadata fs db tid p = .error .badOptionalAccess := by
  simp [load_metadata, hv, ht, hne, ha]

/-- C3 witness: /m/t.mp3 has title T, artist A, track 5 and an empty
album field; loading its metadata for the valid track id 1 raises, and
a scan of /m over a fresh catalog is aborted by that exception. -/
theorem c3_witness :
    is_valid_track_id db_c3 1 = true ∧
    fs_c3.tags "/m/t.mp3" = some ⟨"T", "A", "", 5, true⟩ ∧
    tags_is_empty ⟨"T", "A", "", 5, true⟩ = false ∧
    load_metadata fs_c3 db_c3 1 "/m/t.mp3" = .error .badOptionalAccess ∧
    scan_directory fs_c3 DB.empty "/m" = .error .badOptionalAccess :=
  ⟨by decide, by decide, by decide,
    c3_load_metadata_empty_album_throws fs_c3 db_c3 1 "/m/t.mp3"
      ⟨"T", "A", "", 5, true⟩ (by decide) (by decide) (by decide) rfl,
    by decide⟩

/-- C4: scan_directory on a path that does not exist does NOT return
an absent result: fs::canonical is called before the existence check
and raises std::filesystem::filesystem_error. (For a path that exists
but is not a directory the canonical call succeeds and the function
does return an absent result with the catalog unchanged.) -/
theorem c4_scan_directory_missing_path_throws
    (fs : FileSystem) (db : DB) (path : String)
    (h : fs.kind path = none) :
    scan_directory fs db path = .error .filesystemError := by
  simp [scan_directory, fs_canonical, fs_exists, h]

/-- C4 witness: scanning the nonexistent path /nonexistent raises a
filesystem error instead of returning an absent result. -/
theorem c4_witness :
    fs_none.kind "/nonexistent" = none ∧
    scan_directory fs_none DB.empty "/nonexistent" = .error .filesystemError :=
  ⟨rfl, c4_scan_directory_missing_path_throws fs_none DB.empty "/nonexistent" rfl⟩

/-- C4 companion fact folded into the main theorem is the throwing
path; the existing-but-not-directory path is covered separately for
the record of the correct half of the claim. -/
theorem c4_not_directory_returns_none
    (fs : FileSystem) (db : DB) (path : String)
    (hk : fs.kind path = some .regular)
    (hck : fs.kind (fs.canon path) = some .regular) :
    scan_directory fs db path = .ok (none, db) := by
  simp [scan_directory, fs_canonical, fs_exists, fs_is_directory, hk, hck]

/-- C4 companion witness: scanning a path that exists as a regular
file returns an absent id and leaves the catalog unchanged. -/
theorem c4_not_directory_witness :
    fs_c3.kind "/m/t.mp3" = some .regular ∧
    scan_directory fs_c3 DB.empty "/m/t.mp3" = .ok (none, DB.empty) :=
  ⟨by decide,
    c4_not_directory_returns_none fs_c3 DB.empty "/m/t.mp3"
      (by decide) (by decide)⟩

/-- C5: get_track_metadata never returns a row and never returns an
absent result: its SQL filters on a column named id, which does not
exist in t_tracks_metadata (the key column is track_id), so statement
preparation raises SQLite::Exception on every call. -/
theorem c5_get_track_metadata_always_throws (db : DB) (id : Nat) :
    get_track_metadata db id = .error (.sqliteError "no such column: id") := by
  simp [get_track_metadata, get_track_metadata_where_column,
    t_tracks_metadata_columns]

/-- C6: removing a registered MusicDirectory (whose path exists on
disk and is a directory) reports success, deletes exactly the Track
rows whose parent is that directory, exactly the TrackMetadata rows of
those tracks, and the MusicDirectory row itself, and deletes zero
Artist rows, zero Album rows, and no track of any other directory. -/
theorem c6_remove_music_dir_cascade
    (fs : FileSystem) (db : DB) (path : String) (d : Nat)
    (hk : fs.kind path = some .directory)
    (hreg : get_music_dir_id db (fs.canon path) = some d) :
    (remove_music_dir fs db path).1 = true ∧
    (remove_music_dir fs db path).2.artists = db.artists ∧
    (remove_music_dir fs db path).2.albums = db.albums ∧
    (remove_music_dir fs db path).2.music_dirs =
      db.music_dirs.filter (fun r => !(r.id == d)) ∧
    (remove_music_dir fs db path).2.tracks =
      db.tracks.filter (fun t => !(t.parent_dir_id == d)) ∧
    (remove_music_dir fs db path).2.tracks_metadata =
      db.tracks_metadata.filter (fun m =>
        !(db.tracks.any (fun t => t.id == m.track_id && t.parent_dir_id == d))) := by
  have hany : db.music_dirs.any (fun r => r.id == d) = true := by
    obtain ⟨row, hfind, hid⟩ := Option.map_eq_some'.mp hreg
    exact List.any_eq_true.mpr
      ⟨row, List.mem_of_find?_eq_some hfind, by simp [hid]⟩
  simp [remove_music_dir, fs_exists, fs_is_directory, hk, hreg, hany]

/-- C6 witness: removing the registered directory /d1, which owns
tracks 1 and 3 (track 1 with a metadata row), keeps the artist and
album tables, the other directory /d2 and its track 2 with its
metadata, and removes exactly the /d1 rows. -/
theorem c6_witness :
    fs_c6.kind "/d1" = some .directory ∧
    get_music_dir_id db_c6 (fs_c6.canon "/d1") = some 1 ∧
    (remove_music_dir fs_c6 db_c6 "/d1").1 = true ∧
    (remove_music_dir fs_c6 db_c6 "/d1").2.artists = db_c6.artists ∧
    (remove_music_dir fs_c6 db_c6 "/d1").2.albums = db_c6.albums ∧
    (remove_music_dir fs_c6 db_c6 "/d1").2.music_dirs =
      db_c6.music_dirs.filter (fun r => !(r.id == 1)) ∧
    (remove_music_dir fs_c6 db_c6 "/d1").2.tracks =
      db_c6.tracks.filter (fun t => !(t.parent_dir_id == 1)) ∧
    (remove_music_dir fs_c6 db_c6 "/d1").2.tracks_metadata =
      db_c6.tracks_metadata.filter (fun m =>
        !(db_c6.tracks.any (fun t => t.id == m.track_id && t.parent_dir_id == 1))) :=
  have h := c6_remove_music_dir_cascade fs_c6 db_c6 "/d1" 1 (by decide) (by decide)
  ⟨by decide, by decide, h.1, h.2.1, h.2.2.1, h.2.2.2.1, h.2.2.2.2.1,
    h.2.2.2.2.2⟩

/-- C7: insert_track with a valid parent directory id and a file path
that does not exist on disk does NOT return an absent result:
fs::canonical is called on the file path before the existence check
and raises std::filesystem::filesystem_error. (An invalid parent id,
or an existing path that is not a regular file, does return an absent
result with the catalog unchanged.) -/
theorem c7_insert_track_missing_file_throws
    (fs : FileSystem) (db : DB) (p : String) (pd : Nat)
    (hv : is_valid_music_dir_id db pd = true)
    (hmiss : fs.kind p = none) :
    insert_track fs db p (some pd) = .error .filesystemError := by
  simp [insert_track, hv, fs_canonical, fs_exists, hmiss]

/-- C7 witness: inserting the nonexistent file /m/gone.mp3 under the
valid directory id 1 raises a filesystem error. -/
theorem c7_witness :
    is_valid_music_dir_id db_c7 1 = true ∧
    fs_c7.kind "/m/gone.mp3" = none ∧
    insert_track fs_c7 db_c7 "/m/gone.mp3" (some 1) = .error .filesystemError :=
  ⟨by decide, by decide,
    c7_insert_track_missing_file_throws fs_c7 db_c7 "/m/gone.mp3" 1
      (by decide) (by decide)⟩

/-- C7 companion: the two precondition failures that the code does
detect are reported as an absent id with the catalog unchanged: an
invalid parent directory id, and an existing path that is not a
regular file. -/
theorem c7_detected_preconditions_return_none
    (fs : FileSystem) (db : DB) (p : String) (pd : Nat) :
    (is_valid_music_dir_id db pd = false →
      insert_track fs db p (some pd) = .ok (none, db)) ∧
    (is_valid_music_dir_id db pd = true →
      fs.kind p = some .directory →
      fs.kind (fs.canon p) = some .directory →
      insert_track fs db p (some pd) = .ok (none, db)) := by
  constructor
  · intro h
    simp [insert_track, h]
  · intro hv hk hck
    simp [insert_track, hv, fs_canonical, fs_exists, fs_is_regular_file, hk, hck]

/-- C7 companion witness: an invalid parent id yields an absent result
with the catalog unchanged. -/
theorem c7_detected_preconditions_witness :
    is_valid_music_dir_id DB.empty 1 = false ∧
    insert_track fs_c7 DB.empty "/m/x.mp3" (some 1) = .ok (none, DB.empty) :=
  ⟨by decide,
    (c7_detected_preconditions_return_none fs_c7 DB.empty "/m/x.mp3" 1).1
      (by decide)⟩

/-- C8 counterexample: the supported file /m/d.mp3 has a non-empty
tag set (artist A) with an empty title tag and track number 0, but it
is NOT indexed with the fallback title d and an absent track number:
its album field is also empty, so metadata loading raises
std::bad_optional_access at the album-art line and the scan that
would index it aborts with that exception, writing no metadata at
all. -/
theorem c8_fallback_refuted :
    tags_is_empty ⟨"", "A", "", 0, true⟩ = false ∧
    is_supported_file_type "/m/d.mp3" = true ∧
    fs_c8x.tags "/m/d.mp3" = some ⟨"", "A", "", 0, true⟩ ∧
    scan_directory fs_c8x DB.empty "/m" = .error .badOptionalAccess := by
  decide

/-- C8: whenever Utils::load_metadata completes with a metadata
record for a file whose tags were read, an empty title tag yields the
filename with its extension stripped as the title, and a track-number
tag of the sentinel 0 yields an absent track number. -/
theorem c8_metadata_fallbacks
    (fs : FileSystem) (db db2 : DB) (tid : Nat) (p : String) (tg : Tags)
    (tm : TrackMetadataRow)
    (ht : fs.tags p = some tg)
    (hok : load_metadata fs db tid p = .ok (some tm, db2)) :
    (tg.title = "" → tm.title = remove_extension (filename_of p)) ∧
    (tg.track = 0 → tm.track_num = none) := by
  simp only [load_metadata, ht] at hok
  split at hok
  · simp at hok
  · split at hok
    · simp at hok
    · split at hok
      · simp at hok
      · simp only [Except.ok.injEq, Prod.mk.injEq, Option.some.injEq] at hok
        obtain ⟨htm, -⟩ := hok
        subst htm
        constructor
        · intro h
          simp [h]
        · intro h
          simp [h]

/-- C8 witness: /m/c.flac has an empty title tag and track number 0;
loading its metadata succeeds and yields title c (the filename minus
extension) and an absent track number. -/
theorem c8_witness :
    fs_c8.tags "/m/c.flac" = some ⟨"", "X", "Y", 0, true⟩ ∧
    load_metadata fs_c8 db_c8 1 "/m/c.flac" = .ok (some tm_c8, db_c8f) ∧
    tm_c8.title = remove_extension (filename_of "/m/c.flac") ∧
    tm_c8.track_num = none :=
  have h := c8_metadata_fallbacks fs_c8 db_c8 db_c8f 1 "/m/c.flac"
    ⟨"", "X", "Y", 0, true⟩ tm_c8 (by decide) (by decide)
  ⟨by decide, by decide, h.1 rfl, h.2 rfl⟩

/-- C9: insert_album with a present artist id that is not in the
artists table returns an absent result and leaves the database
unchanged. -/
theorem c9_insert_album_invalid_artist
    (db : DB) (name : String) (a : Nat)
    (h : is_valid_artist_id db a = false) :
    insert_album db name (some a) = (none, db) := by
  simp [insert_album, h]

/-- C9 witness: inserting album Z with the nonexistent artist id 7
into the empty catalog is refused and changes nothing. -/
theorem c9_witness :
    is_valid_artist_id DB.empty 7 = false ∧
    insert_album DB.empty "Z" (some 7) = (none, DB.empty) :=
  ⟨by decide, c9_insert_album_invalid_artist DB.empty "Z" 7 (by decide)⟩

/-- C10: get_all_tracks attaches a metadata record to every returned
track; a track with no metadata row is reported with an empty title
and absent track number, artist id and album id, and the output is
identical to the output for a database in which that track instead
has a stored metadata row with exactly those empty values. -/
theorem c10_get_all_tracks_left_join
    (db : DB) (t : TrackRow)
    (ht : t ∈ db.tracks)
    (hnone : db.tracks_metadata.find? (fun m => m.track_id == t.id) = none) :
    (∀ e ∈ get_all_tracks db, e.metadata.isSome = true) ∧
    (⟨t.id, t.file_path, t.parent_dir_id, some ⟨t.id, "", none, none, none⟩⟩ : TrackOut)
      ∈ get_all_tracks db ∧
    get_all_tracks db =
      get_all_tracks
        { db with
          tracks_metadata :=
            db.tracks_metadata ++ [⟨t.id, "", none, none, none⟩] } := by
  refine ⟨?_, ?_, ?_⟩
  · intro e he
    rw [get_all_tracks, List.mem_map] at he
    obtain ⟨t', _, rfl⟩ := he
    rfl
  · rw [get_all_tracks, List.mem_map]
    exact ⟨t, ht, by simp [hnone]⟩
  · rw [get_all_tracks, get_all_tracks]
    apply List.map_congr_left
    intro t' _
    simp only []
    cases hfind : db.tracks_metadata.find? (fun m => m.track_id == t'.id) with
    | some m => simp [List.find?_append, hfind]
    | none =>
        cases hid : t.id == t'.id with
        | true => simp [List.find?_append, hfind, hid]
        | false => simp [List.find?_append, hfind, hid]

/-- C10 witness: the database with one track and no metadata row; the
query output attaches the empty metadata record to the track and is
identical to the output for the database that stores that empty
metadata row. -/
theorem c10_witness :
    (⟨1, "/m/a.mp3", 1⟩ : TrackRow) ∈ db_c10.tracks ∧
    db_c10.tracks_metadata.find? (fun m => m.track_id == 1) = none ∧
    (∀ e ∈ get_all_tracks db_c10, e.metadata.isSome = true) ∧
    (⟨1, "/m/a.mp3", 1, some ⟨1, "", none, none, none⟩⟩ : TrackOut)
      ∈ get_all_tracks db_c10 ∧
    get_all_tracks db_c10 =
      get_all_tracks
        { db_c10 with
          tracks_metadata :=
            db_c10.tracks_metadata ++ [⟨1, "", none, none, none⟩] } :=
  have h := c10_get_all_tracks_left_join db_c10 ⟨1, "/m/a.mp3", 1⟩
    (by decide) (by decide)
  ⟨by decide, by decide, h.1, h.2.1, h.2.2⟩

end Midx
